import Mathlib

/-!
Verification of the Nokia OLT output-parsing engine (`napalm_nokia_olt`).

The Python source is shallowly embedded: Python `str` values are modelled as
`List Char`, Python dicts as insertion-ordered association lists (`pyInsert`
updates in place, preserving the entry's position, exactly like CPython
dicts), and Python exceptions as an `Except PyError` result.  Every
definition below is translated from the repository's source; the source
file and function are named in each doc comment.
-/

set_option autoImplicit false

/-- A Python string is modelled as its list of characters. -/
def cs (s : String) : List Char := s.toList

/-- The Python exceptions that the embedded code can raise. -/
inductive PyError where
  | parseError
  | keyError
  | typeError
  | valueError
  | indexError
  | attributeError
  deriving DecidableEq, Repr

/-- Decidable equality of embedded results. -/
instance {e a : Type} [DecidableEq e] [DecidableEq a] : DecidableEq (Except e a) := fun x y =>
  match x, y with
  | .ok v, .ok w =>
    if h : v = w then .isTrue (by rw [h]) else .isFalse (by simp [h])
  | .error v, .error w =>
    if h : v = w then .isTrue (by rw [h]) else .isFalse (by simp [h])
  | .ok _, .error _ => .isFalse (by simp)
  | .error _, .ok _ => .isFalse (by simp)

instance {a b : Type} [DecidableEq a] [DecidableEq b] : DecidableEq (Sum a b) := fun x y =>
  match x, y with
  | .inl v, .inl w =>
    if h : v = w then .isTrue (by rw [h]) else .isFalse (by simp [h])
  | .inr v, .inr w =>
    if h : v = w then .isTrue (by rw [h]) else .isFalse (by simp [h])
  | .inl _, .inr _ => .isFalse (by simp)
  | .inr _, .inl _ => .isFalse (by simp)

/-- Python `str.isspace` / the `\s` regex class, for the characters that can
occur in device output (ASCII controls plus the common Unicode spaces). -/
def pySpace (c : Char) : Bool :=
  c = ' ' || c = '\t' || c = '\n' || c = '\r' || c = '\x0b' || c = '\x0c' ||
  c = '\x1c' || c = '\x1d' || c = '\x1e' || c = '\x1f' || c = '\x85' || c = '\xa0'

/-- `leadsWith p s` : `p` is a prefix of `s` (Python `s.startswith(p)` at the head). -/
def leadsWith : List Char → List Char → Bool
  | [], _ => true
  | _ :: _, [] => false
  | a :: ps, b :: ss => a = b && leadsWith ps ss

/-- Python substring containment, `needle in hay`. -/
def containsSub (needle : List Char) : List Char → Bool
  | [] => leadsWith needle []
  | c :: rest => leadsWith needle (c :: rest) || containsSub needle rest

/-- Python `str.split()` with no argument: split on runs of whitespace,
discarding empty fields. -/
def pySplit (s : List Char) : List (List Char) :=
  ((s.splitOnP pySpace).filter (· ≠ []))

/-- Python `str.splitlines()` restricted to the line terminators that occur in
device output: `\r\n`, `\n` and `\r` (the rarer Unicode terminators that
CPython also recognises do not appear in any input considered here). -/
def pySplitlines : List Char → List (List Char)
  | [] => []
  | s => pySplitlinesGo s []
where
  pySplitlinesGo : List Char → List Char → List (List Char)
    | [], acc => [acc.reverse]
    | '\r' :: '\n' :: rest, acc =>
      acc.reverse :: (if rest = [] then [] else pySplitlinesGo rest [])
    | '\r' :: rest, acc =>
      acc.reverse :: (if rest = [] then [] else pySplitlinesGo rest [])
    | '\n' :: rest, acc =>
      acc.reverse :: (if rest = [] then [] else pySplitlinesGo rest [])
    | c :: rest, acc => pySplitlinesGo rest (c :: acc)

/-- Python `str.strip()`: remove leading and trailing whitespace. -/
def pyStrip (s : List Char) : List Char :=
  ((s.dropWhile pySpace).reverse.dropWhile pySpace).reverse

/-- Python `sep.join(parts)`. -/
def pyJoin (sep : List Char) : List (List Char) → List Char
  | [] => []
  | [p] => p
  | p :: rest => p ++ sep ++ pyJoin sep rest

/-- Python `s.split(sep)` for a one-character separator (keeps empty fields). -/
def pySplitOnChar (sep : Char) (s : List Char) : List (List Char) :=
  go s []
where
  go : List Char → List Char → List (List Char)
    | [], acc => [acc.reverse]
    | c :: rest, acc =>
      if c = sep then acc.reverse :: go rest [] else go rest (c :: acc)

/-- Python `int(s)` on a string: strip whitespace, optional sign, then a
nonempty digit run; anything else raises `ValueError`.  (CPython's underscore
digit grouping is not used by any device output and is not modelled.) -/
def pyInt (s : List Char) : Except PyError Int :=
  let t := pyStrip s
  match t with
  | '+' :: ds => digits ds
  | '-' :: ds => (digits ds).map (fun n => -n)
  | ds => digits ds
where
  digits (ds : List Char) : Except PyError Int :=
    if ds ≠ [] ∧ ds.all Char.isDigit then
      .ok (Int.ofNat (ds.foldl (fun n c => n * 10 + (c.toNat - '0'.toNat)) 0))
    else .error .valueError

/-- A Python dict: an insertion-ordered association list. -/
def pyInsert {α β : Type} [DecidableEq α] : List (α × β) → α → β → List (α × β)
  | [], k, v => [(k, v)]
  | (a, b) :: t, k, v =>
    if a = k then (a, v) :: t else (a, b) :: pyInsert t k v

/-- Dict lookup, `d.get(k)` / `d[k]` (the caller turns `none` into `KeyError`
where the Python code would raise). -/
def pyLookup {α β : Type} [DecidableEq α] : List (α × β) → α → Option β
  | [], _ => none
  | (a, b) :: t, k => if a = k then some b else pyLookup t k

/-- Python `k in d` for a dict. -/
def pyMem {α β : Type} [DecidableEq α] (d : List (α × β)) (k : α) : Bool :=
  (pyLookup d k).isSome

theorem pyLookup_pyInsert {α β : Type} [DecidableEq α]
    (d : List (α × β)) (k k' : α) (v : β) :
    pyLookup (pyInsert d k v) k' = if k' = k then some v else pyLookup d k' := by
  induction d with
  | nil => simp [pyInsert, pyLookup, eq_comm]
  | cons p t ih =>
    obtain ⟨a, b⟩ := p
    by_cases hak : a = k
    · subst hak
      by_cases hk' : k' = a
      · subst hk'; simp [pyInsert, pyLookup]
      · have hka : ¬a = k' := fun h => hk' h.symm
        simp [pyInsert, pyLookup, hk', hka]
    · by_cases hk'a : a = k'
      · have hkk : ¬k' = k := hk'a ▸ hak
        simp [pyInsert, pyLookup, hak, hk'a, hkk]
      · simp [pyInsert, pyLookup, hak, hk'a, ih]

theorem mem_pyInsert {α β : Type} [DecidableEq α]
    {d : List (α × β)} {k k' : α} {v v' : β}
    (h : (k', v') ∈ pyInsert d k v) :
    (k' = k ∧ v' = v) ∨ (k', v') ∈ d := by
  induction d with
  | nil => simpa [pyInsert] using h
  | cons p t ih =>
    obtain ⟨a, b⟩ := p
    by_cases hak : a = k
    · subst hak
      rcases (by simpa [pyInsert] using h : (k', v') = (a, v) ∨ (k', v') ∈ t) with h1 | h1
      · exact Or.inl ⟨(Prod.mk.injEq _ _ _ _ ▸ h1).1, (Prod.mk.injEq _ _ _ _ ▸ h1).2⟩
      · exact Or.inr (List.mem_cons_of_mem _ h1)
    · rcases (by simpa [pyInsert, hak] using h :
          (k', v') = (a, b) ∨ (k', v') ∈ pyInsert t k v) with h1 | h1
      · exact Or.inr (h1 ▸ List.mem_cons_self _ _)
      · rcases ih h1 with h2 | h2
        · exact Or.inl h2
        · exact Or.inr (List.mem_cons_of_mem _ h2)

/-!  ## The quasi-XML tree model (`xml.etree.ElementTree`)

An `XTree` is one parsed element: tag, attribute list, the text that stands
before the first child (`none` when there is none, as in ElementTree), and
the child elements.  Tail text between siblings is consumed by the parser but
not stored, because none of the embedded functions ever reads `.tail`. -/

inductive XTree where
  | node (tag : List Char) (attrs : List (List Char × List Char))
         (text : Option (List Char)) (children : List XTree)

def XTree.tag : XTree → List Char
  | .node t _ _ _ => t

def XTree.attrs : XTree → List (List Char × List Char)
  | .node _ a _ _ => a

def XTree.text : XTree → Option (List Char)
  | .node _ _ x _ => x

def XTree.children : XTree → List XTree
  | .node _ _ _ c => c

/-- `elem.attrib[name]` as an option. -/
def getAttr (t : XTree) (name : List Char) : Option (List Char) :=
  pyLookup t.attrs name

mutual

/-- All proper descendants of an element, in document (preorder) order. -/
def descendants : XTree → List XTree
  | .node _ _ _ kids => forestElems kids

/-- Preorder traversal of a forest. -/
def forestElems : List XTree → List XTree
  | [] => []
  | c :: rest => c :: descendants c ++ forestElems rest

end

/-- `elem.iter()`: the element itself followed by its descendants in
document order. -/
def iterElems (t : XTree) : List XTree :=
  t :: descendants t

/-- `root.findall(".//tag[@name=value]")`-style deep search: all proper
descendants whose tag is `tag` and whose `name` attribute equals `value`,
in document order. -/
def findHier (t : XTree) (value : List Char) : List XTree :=
  (descendants t).filter fun e => e.tag = cs "hierarchy" && getAttr e (cs "name") = some value

/-- `root.findall(".//instance")`: all proper descendants tagged `instance`. -/
def findInstances (t : XTree) : List XTree :=
  (descendants t).filter fun e => e.tag = cs "instance"

/-- Number of `instance` elements anywhere strictly below the root. -/
def deepInstanceCount (t : XTree) : Nat :=
  (findInstances t).length

/-!  ## A small XML parser modelling `ET.fromstring`

The parser covers the fragment of XML that the appliance's quasi-XML dialect
uses (elements, attributes with single- or double-quoted values, text, an
optional `<?...?>` prolog); character entities and comments do not occur in
the inputs considered and are not modelled.  Any other input, including the
empty string, yields `PyError.parseError` just as `ET.fromstring` raises
`xml.etree.ElementTree.ParseError`. -/

def xmlWs (c : Char) : Bool := c = ' ' || c = '\t' || c = '\n' || c = '\r'

def xmlNameChar (c : Char) : Bool :=
  c.isAlphanum || c = '-' || c = '_' || c = ':' || c = '.'

/-- Parse attributes after the tag name.  Returns the attribute list and the
rest of the input, which starts at `>`, `/>` or an error position. -/
def parseAttrs : Nat → List Char → Except PyError (List (List Char × List Char) × List Char)
  | 0, _ => .error .parseError
  | fuel + 1, s =>
    let s := s.dropWhile xmlWs
    match s with
    | c :: _ =>
      if xmlNameChar c then
        let name := s.takeWhile xmlNameChar
        let rest := s.dropWhile xmlNameChar
        match rest with
        | '=' :: q :: rest2 =>
          if q = '"' ∨ q = '\'' then
            let value := rest2.takeWhile (· ≠ q)
            match rest2.dropWhile (· ≠ q) with
            | _ :: rest3 =>
              (parseAttrs fuel rest3).map fun (attrs, r) => ((name, value) :: attrs, r)
            | [] => .error .parseError
          else .error .parseError
        | _ => .error .parseError
      else .ok ([], s)
    | [] => .error .parseError

mutual

/-- Parse one element starting at `<`. -/
def parseElem : Nat → List Char → Except PyError (XTree × List Char)
  | 0, _ => .error .parseError
  | fuel + 1, s =>
    match s with
    | '<' :: rest =>
      let tag := rest.takeWhile xmlNameChar
      if tag = [] then .error .parseError
      else
        match parseAttrs fuel (rest.dropWhile xmlNameChar) with
        | .error e => .error e
        | .ok (attrs, rest2) =>
          match rest2 with
          | '/' :: '>' :: rest3 => .ok (.node tag attrs none [], rest3)
          | '>' :: rest3 =>
            let txt := rest3.takeWhile (· ≠ '<')
            match parseKids fuel tag (rest3.dropWhile (· ≠ '<')) with
            | .error e => .error e
            | .ok (kids, rest4) =>
              .ok (.node tag attrs (if txt = [] then none else some txt) kids, rest4)
          | _ => .error .parseError
    | _ => .error .parseError

/-- Parse the children of an open element whose content position is at `<`
(text has already been consumed), up to and including the matching close
tag. -/
def parseKids : Nat → List Char → List Char → Except PyError (List XTree × List Char)
  | 0, _, _ => .error .parseError
  | fuel + 1, tag, s =>
    match s with
    | '<' :: '/' :: rest =>
      let close := rest.takeWhile xmlNameChar
      if close = tag then
        match rest.dropWhile xmlNameChar with
        | '>' :: rest2 => .ok ([], rest2)
        | _ => .error .parseError
      else .error .parseError
    | '<' :: _ =>
      match parseElem fuel s with
      | .error e => .error e
      | .ok (kid, rest2) =>
        -- tail text between siblings is consumed and discarded
        match parseKids fuel tag (rest2.dropWhile (· ≠ '<')) with
        | .error e => .error e
        | .ok (kids, rest3) => .ok (kid :: kids, rest3)
    | _ => .error .parseError

end

/-- `ET.fromstring(s)`: skip an optional `<?...?>` prolog and surrounding
whitespace, parse exactly one root element, and require only whitespace
after it. -/
def parseXml (s : List Char) : Except PyError XTree :=
  let s1 := s.dropWhile xmlWs
  let s2 :=
    if leadsWith (cs "<?") s1 then
      match (s1.dropWhile (· ≠ '?')).drop 1 with
      | '>' :: r => r.dropWhile xmlWs
      | r => r.dropWhile xmlWs
    else s1
  match parseElem (s2.length + 1) s2 with
  | .error e => .error e
  | .ok (t, rest) => if rest.dropWhile xmlWs = [] then .ok t else .error .parseError

/-!  ## Node Flattener, Record Lister, Keyed Grouper
Source: `src/napalm_nokia_olt/napalm_nokia_olt/nokia_olt.py`. -/

/-- A FieldRecord: device field name to text value (`none` models Python
`None`, the text of an empty element). -/
abbrev Rec := List (List Char × Option (List Char))

/-- Space-to-underscore normalisation of a field name (as in
`_convert_xml_elem_to_dict`). -/
def normName (a : List Char) : List Char :=
  a.map fun c => if c = ' ' then '_' else c

/-- One step of `_convert_xml_elem_to_dict`'s loop body: skip `instance` tags,
read `e.attrib["name"]` (KeyError when absent), normalise spaces to
underscores, store `e.text`. -/
def flattenStep (d : Rec) (e : XTree) : Except PyError Rec :=
  if e.tag = cs "instance" then .ok d
  else
    match getAttr e (cs "name") with
    | none => .error .keyError
    | some a => .ok (pyInsert d (normName a) e.text)

/-- The flattener's loop over a list of elements. -/
def flattenElems : List XTree → Rec → Except PyError Rec
  | [], d => .ok d
  | e :: rest, d =>
    match flattenStep d e with
    | .error err => .error err
    | .ok d' => flattenElems rest d'

/-- `_convert_xml_elem_to_dict(elem)` (nokia_olt.py lines 154-163): iterate
`elem.iter()`, skipping `instance` tags, keying each element by its `name`
attribute with spaces replaced by underscores, value `e.text`. -/
def convertXmlElemToDict (t : XTree) : Except PyError Rec :=
  flattenElems (iterElems t) []

/-- The `hierarchy` line-stripping sanitizer inside `convert_xml_to_list`
(lines 134-140): drop every line containing the substring `hierarchy`,
concatenate the remaining lines with no separator, and strip. -/
def sanitizeXml (xml_data : List Char) : List Char :=
  pyStrip (((pySplitlines xml_data).filter fun l => ¬ containsSub (cs "hierarchy") l).foldl (· ++ ·) [])

/-- The record built from one `instance` element inside `convert_xml_to_list`
(lines 143-149): iterate the instance's direct children, keying each by its
raw `name` attribute (KeyError when absent, no space normalisation),
value `element.text`. -/
def instRecord (inst : XTree) : Except PyError Rec :=
  go inst.children []
where
  go : List XTree → Rec → Except PyError Rec
    | [], d => .ok d
    | e :: rest, d =>
      match getAttr e (cs "name") with
      | none => .error .keyError
      | some a => go rest (pyInsert d a e.text)

/-- `root.findall("instance")`: the direct children of the root whose tag is
`instance` (ElementTree's non-`.//` path searches children only). -/
def rootInstances (t : XTree) : List XTree :=
  t.children.filter fun e => e.tag = cs "instance"

/-- The `for instance_elem in root.findall("instance")` loop of
`convert_xml_to_list`: one record per instance, in document order. -/
def instList : List XTree → Except PyError (List Rec)
  | [] => .ok []
  | e :: rest =>
    match instRecord e with
    | .error err => .error err
    | .ok r =>
      match instList rest with
      | .error err => .error err
      | .ok rs => .ok (r :: rs)

/-- The body of `convert_xml_to_list` for truthy input: sanitize, parse
(`ET.fromstring` raising on malformed input), and flatten each top-level
`instance` element in document order. -/
def xmlBody (xml_data : List Char) : Except PyError (List Rec) :=
  match parseXml (sanitizeXml xml_data) with
  | .error e => .error e
  | .ok root => instList (rootInstances root)

/-- `convert_xml_to_list(xml_data)` (lines 132-152): `None` (modelled `none`)
for falsy input, otherwise the record list. -/
def convertXmlToList (xml_data : List Char) : Except PyError (Option (List Rec)) :=
  if xml_data = [] then .ok none
  else (xmlBody xml_data).map some

/-- `_convert_list_to_dict(data, key)` (lines 165-175): key each record by its
value for `key`, last record winning; records lacking the key are skipped by
the `except KeyError: pass`. -/
def convertListToDict (data : List Rec) (key : List Char) :
    List (Option (List Char) × Rec) :=
  data.foldl
    (fun d r =>
      match pyLookup r key with
      | some v => pyInsert d v r
      | none => d)
    []

/-!  ## Fact-retrieval operations
All from `src/napalm_nokia_olt/napalm_nokia_olt/nokia_olt.py`; each function
takes the raw command outputs that `_send_command` would return. -/

/-- `d[k]` on a record: KeyError when the key is absent. -/
def pyAt (d : Rec) (k : List Char) : Except PyError (Option (List Char)) :=
  match pyLookup d k with
  | some v => .ok v
  | none => .error .keyError

/-- `int(x)` where `x` came out of a record: `int(None)` raises TypeError. -/
def pyIntOpt : Option (List Char) → Except PyError Int
  | none => .error .typeError
  | some s => pyInt s

/-- `get_ntp_servers` (lines 639-650): convert the command output to a list;
when the output was falsy, `convert_xml_to_list` returned `None` and the
subsequent `for sub in data:` raises `TypeError`.  Otherwise collect every
`server-ip-addrv6` value into a `defaultdict(list)`. -/
def getNtpServers (data : List Char) : Except PyError (List (List Char × List (Option (List Char)))) :=
  match convertXmlToList data with
  | .error e => .error e
  | .ok none => .error .typeError
  | .ok (some recs) =>
    .ok (recs.foldl
      (fun d r =>
        r.foldl
          (fun d2 kv =>
            if kv.1 = cs "server-ip-addrv6" then
              match pyLookup d2 kv.1 with
              | some l => pyInsert d2 kv.1 (l ++ [kv.2])
              | none => pyInsert d2 kv.1 [kv.2]
            else d2)
          d)
      [])

/-- `get_equipment_ont_interfaces` (lines 366-393): on truthy output, list
then re-key by `ont-idx`; on falsy output, the explicit no-data message. -/
def getEquipmentOntInterfaces (hostname data : List Char) :
    Except PyError (Sum (List (Option (List Char) × Rec)) (List Char)) :=
  if data ≠ [] then
    (xmlBody data).map fun recs => .inl (convertListToDict recs (cs "ont-idx"))
  else .ok (.inr (cs "No available data from the " ++ hostname))

/-- `make_device_model(data)` (lines 215-224): scan for a line containing both
`Copyright` and `NOKIA`, then return the two whitespace tokens following the
exact token `NOKIA` (`list.index` raises ValueError when the token is absent,
indexing past the end raises IndexError); `None` when no line matches. -/
def makeDeviceModel (data : List Char) : Except PyError (Option (List Char)) :=
  if data = [] then .ok none
  else loop (pySplitlines data)
where
  loop : List (List Char) → Except PyError (Option (List Char))
    | [] => .ok none
    | line :: rest =>
      if containsSub (cs "Copyright") line ∧ containsSub (cs "NOKIA") line then
        let toks := pySplit line
        match toks.findIdx? (· = cs "NOKIA") with
        | none => .error .valueError
        | some i =>
          match toks.get? (i + 1), toks.get? (i + 2) with
          | some t1, some t2 => .ok (some (t1 ++ [' '] ++ t2))
          | _, _ => .error .indexError
      else loop rest

/-- The heterogeneous values held by the facts dict: a Python string or
`None` (`vs`), or the interface list (`vl`). -/
inductive FactVal where
  | vs (s : Option (List Char))
  | vl (l : List (Option (List Char)))
  deriving DecidableEq, Repr

abbrev Facts := List (List Char × FactVal)

/-- `get_facts`' first loop (lines 253-263): for each `hierarchy[@name="isam"]`
descendant whose flattening has a `description`, install the hostname and the
documented defaults. -/
def factsHostLoop : List XTree → Facts → Except PyError Facts
  | [], facts => .ok facts
  | e :: rest, facts =>
    match convertXmlElemToDict e with
    | .error err => .error err
    | .ok dummy =>
      match pyLookup dummy (cs "description") with
      | none => factsHostLoop rest facts
      | some v =>
        let f := pyInsert facts (cs "hostname") (.vs v)
        let f := pyInsert f (cs "vendor") (.vs (some (cs "Nokia")))
        let f := pyInsert f (cs "uptime") (.vs (some []))
        let f := pyInsert f (cs "os_version") (.vs (some []))
        let f := pyInsert f (cs "serial_number") (.vs (some []))
        let f := pyInsert f (cs "fqdn") (.vs (some (cs "Unknown")))
        let f := pyInsert f (cs "interface_list") (.vl [])
        factsHostLoop rest f

/-- `get_facts`' os_version loop (lines 266-270). -/
def factsOsLoop : List XTree → Facts → Except PyError Facts
  | [], facts => .ok facts
  | e :: rest, facts =>
    match convertXmlElemToDict e with
    | .error err => .error err
    | .ok dummy =>
      match pyLookup dummy (cs "isam-feature-group") with
      | none => factsOsLoop rest facts
      | some v => factsOsLoop rest (pyInsert facts (cs "os_version") (.vs v))

/-- `facts["model"] += f" ({variant})"` (line 280): string concatenation when
the model fact is a string, `TypeError` when it is `None` (the two non-string
cases cannot actually occur, since `model` is always set first). -/
def appendVariant (facts : Facts) (variant : Option (List Char)) : Except PyError Facts :=
  let vtxt := match variant with
    | some t => t
    | none => cs "None"
  match pyLookup facts (cs "model") with
  | some (.vs (some m)) =>
    .ok (pyInsert facts (cs "model") (.vs (some (m ++ cs " (" ++ vtxt ++ cs ")"))))
  | some (.vs none) => .error .typeError
  | some (.vl _) => .error .typeError
  | none => .error .keyError

/-- `get_facts`' serial/model loop (lines 273-280). -/
def factsSnLoop : List XTree → Facts → Except PyError Facts
  | [], facts => .ok facts
  | e :: rest, facts =>
    match convertXmlElemToDict e with
    | .error err => .error err
    | .ok dummy =>
      let f1 := match pyLookup dummy (cs "serial-no") with
        | none => facts
        | some v => pyInsert facts (cs "serial_number") (.vs v)
      match pyLookup dummy (cs "variant") with
      | none => factsSnLoop rest f1
      | some v =>
        match appendVariant f1 v with
        | .error err => .error err
        | .ok f2 => factsSnLoop rest f2

/-- `get_facts`' uptime loop (lines 283-293): a line whose first token
contains `System` has its second token examined (IndexError when there is
only one token); if that contains `Up`, four leading tokens are popped
(IndexError when there are fewer than four) and the rest joined. -/
def factsUptimeLoop : List (List Char) → Facts → Except PyError Facts
  | [], facts => .ok facts
  | line :: rest, facts =>
    match pySplit line with
    | [] => factsUptimeLoop rest facts
    | t0 :: more =>
      if containsSub (cs "System") t0 then
        match more with
        | [] => .error .indexError
        | t1 :: _ =>
          if containsSub (cs "Up") t1 then
            if (t0 :: more).length < 4 then .error .indexError
            else
              factsUptimeLoop rest
                (pyInsert facts (cs "uptime") (.vs (some (pyJoin [' '] ((t0 :: more).drop 4)))))
          else factsUptimeLoop rest facts
      else factsUptimeLoop rest facts

/-- `get_facts`' interface loop (lines 295-298): collect `ont-idx` values. -/
def factsPortLoop : List XTree → List (Option (List Char)) → Except PyError (List (Option (List Char)))
  | [], acc => .ok acc
  | e :: rest, acc =>
    match convertXmlElemToDict e with
    | .error err => .error err
    | .ok dummy =>
      match pyLookup dummy (cs "ont-idx") with
      | none => factsPortLoop rest acc
      | some v => factsPortLoop rest (acc ++ [v])

/-- Lexicographic comparison of Python lists of ints. -/
def lexLe : List Int → List Int → Bool
  | [], _ => true
  | _ :: _, [] => false
  | x :: xs, y :: ys => if x < y then true else if y < x then false else lexLe xs ys

/-- Stable insertion of `x` after every already-placed element `y` with
`le y x`. -/
def insertSorted {a : Type} (le : a → a → Bool) (x : a) : List a → List a
  | [] => [x]
  | y :: rest => if le y x then y :: insertSorted le x rest else x :: y :: rest

/-- A stable sort (insertion sort).  For a total preorder `le` this yields
the same list as CPython's stable `list.sort`. -/
def stableSort {a : Type} (le : a → a → Bool) (l : List a) : List a :=
  l.foldl (fun acc x => insertSorted le x acc) []

/-- `port_list.sort(key=lambda p: list(map(int, p.split("/"))))` (line 299):
`None` entries raise AttributeError at `.split`, non-numeric components raise
ValueError at `int`; otherwise a stable sort by component-wise integer key. -/
def sortPorts (ports : List (Option (List Char))) :
    Except PyError (List (Option (List Char))) :=
  match ports.mapM
      (fun p =>
        (match p with
         | none => .error .attributeError
         | some s => ((pySplitOnChar '/' s).mapM pyInt).map fun key => (key, p) :
          Except PyError (List Int × Option (List Char)))) with
  | .error e => .error e
  | .ok keyed => .ok ((stableSort (fun a b => lexLe a.1 b.1) keyed).map (·.2))

/-- `get_facts` (lines 226-301): the six command outputs in, the facts dict
out; any parse failure or data-shape slip propagates as the corresponding
Python exception. -/
def getFacts (hostname_output os_output uptime_output sn_output port_output
    model_output : List Char) : Except PyError Facts := do
  let device_model ← makeDeviceModel model_output
  let hostname_tree ← parseXml hostname_output
  let os_tree ← parseXml os_output
  let sn_tree ← parseXml sn_output
  let port_tree ← parseXml port_output
  let facts : Facts := pyInsert [] (cs "model") (.vs device_model)
  let facts ← factsHostLoop (findHier hostname_tree (cs "isam")) facts
  let facts ← factsOsLoop (findHier os_tree (cs "ansi")) facts
  let facts ← factsSnLoop (findHier sn_tree (cs "shelf")) facts
  let facts ← factsUptimeLoop (pySplitlines uptime_output) facts
  let ports ← factsPortLoop (findInstances port_tree) []
  let sorted ← sortPorts ports
  .ok (pyInsert facts (cs "interface_list") (.vl sorted))

/-- One VLAN's entry inside `get_vlans`' result (a dict with the fixed keys
`name` and `interfaces`). -/
structure VlanEntry where
  name : Option (List Char)
  interfaces : List (List Char)
  deriving DecidableEq, Repr

/-- `get_vlans`' first loop (lines 316-322): key each `instance` of the
vlan-name output by `int(dummy_data["id"])`, first occurrence wins. -/
def vlanNameLoop : List XTree → List (Int × VlanEntry) → Except PyError (List (Int × VlanEntry))
  | [], vlans => .ok vlans
  | e :: rest, vlans => do
    let dummy ← convertXmlElemToDict e
    let idv ← pyAt dummy (cs "id")
    let pk ← pyIntOpt idv
    if pyMem vlans pk then vlanNameLoop rest vlans
    else do
      let nm ← pyAt dummy (cs "name")
      vlanNameLoop rest (pyInsert vlans pk ⟨nm, []⟩)

/-- `get_vlans`' second loop (lines 325-334): for each tagging `instance`,
`vlan_id = int(dummy_data["vlan-id"])`, `port = dummy_data["vlan-port"].split(":")[1]`,
and when the transmit-mode contains `single-tagged` or `untagged`,
`vlans[vlan_id]["interfaces"].append(port)` — an uncaught `KeyError` when
`vlan_id` is not a key of `vlans`. -/
def vlanTagLoop : List XTree → List (Int × VlanEntry) → Except PyError (List (Int × VlanEntry))
  | [], vlans => .ok vlans
  | e :: rest, vlans => do
    let dummy ← convertXmlElemToDict e
    let vidv ← pyAt dummy (cs "vlan-id")
    let vlan_id ← pyIntOpt vidv
    let port_raw ← pyAt dummy (cs "vlan-port")
    let port ←
      match port_raw with
      | none => .error .attributeError
      | some pr =>
        match (pySplitOnChar ':' pr).get? 1 with
        | some p => .ok p
        | none => .error .indexError
    let tm ← pyAt dummy (cs "transmit-mode")
    match tm with
    | none => .error .typeError
    | some t =>
      if containsSub (cs "single-tagged") t || containsSub (cs "untagged") t then
        match pyLookup vlans vlan_id with
        | none => .error .keyError
        | some entry =>
          vlanTagLoop rest (pyInsert vlans vlan_id ⟨entry.name, entry.interfaces ++ [port]⟩)
      else vlanTagLoop rest vlans

/-- `get_vlans` (lines 303-336): parse both outputs, build the name-keyed
dict, then append tagged/untagged ports. -/
def getVlans (vlan_name_output tagging_output : List Char) :
    Except PyError (List (Int × VlanEntry)) := do
  let name_tree ← parseXml vlan_name_output
  let tag_tree ← parseXml tagging_output
  let vlans ← vlanNameLoop (findInstances name_tree) []
  vlanTagLoop (findInstances tag_tree) vlans

/-- The inner `for i in tmp_data:` loop of `get_vlan_bridge_port_fdb`
(lines 618-622): walk the pairs already stored under the port; at the first
pair whose mac differs from the new record's, append the new `(vlan, mac)`
pair to the full list and break; if every stored mac equals the new one,
fall through with the list unchanged. -/
def fdbScan (full : List (Option (List Char) × Option (List Char)))
    (vlan mac : Option (List Char)) :
    List (Option (List Char) × Option (List Char)) →
      List (Option (List Char) × Option (List Char))
  | [] => full
  | p :: rest => if p.2 ≠ mac then full ++ [(vlan, mac)] else fdbScan full vlan mac rest

/-- One record's effect on `new_dict` in `get_vlan_bridge_port_fdb`
(lines 616-624): the `port_ in new_dict` block, then the separate
`port_ not in new_dict` block. -/
def fdbStep (d : List (Option (List Char) × List (Option (List Char) × Option (List Char))))
    (port vlan mac : Option (List Char)) :
    List (Option (List Char) × List (Option (List Char) × Option (List Char))) :=
  let d1 :=
    match pyLookup d port with
    | some lst => pyInsert d port (fdbScan lst vlan mac lst)
    | none => d
  if pyMem d1 port then d1 else pyInsert d1 port [(vlan, mac)]

/-- The record loop of `get_vlan_bridge_port_fdb` (lines 611-624). -/
def fdbLoop : List Rec →
    List (Option (List Char) × List (Option (List Char) × Option (List Char))) →
    Except PyError (List (Option (List Char) × List (Option (List Char) × Option (List Char))))
  | [], d => .ok d
  | r :: rest, d => do
    let port ← pyAt r (cs "port")
    let vlan ← pyAt r (cs "vlan-id")
    let mac ← pyAt r (cs "mac")
    fdbLoop rest (fdbStep d port vlan mac)

/-- `get_vlan_bridge_port_fdb` (lines 602-627): group the `(vlan-id, mac)`
pairs of the listed records under their `port` value; falsy output yields the
no-data message. -/
def getVlanBridgePortFdb (hostname data : List Char) :
    Except PyError
      (Sum (List (Option (List Char) × List (Option (List Char) × Option (List Char))))
        (List Char)) :=
  if data ≠ [] then
    match xmlBody data with
    | .error e => .error e
    | .ok recs =>
      match fdbLoop recs [] with
      | .error e => .error e
      | .ok d => .ok (.inl d)
  else
    .ok (.inr (cs "No available ** show vlan bridge-port-fdb ** data from the " ++ hostname))

/-!  ## A small regex engine for the LLDP patterns

The module-level patterns of `napalm_nokia_olt/nokia_olt.py` (lines 14-21)
are sequences of literals, single-character classes and greedy `*`/`+`
class repetitions around one capture group, anchored at line starts
(`re.MULTILINE`).  `Item` is that pattern language; `matchSeq` returns every
consumed length in Python's backtracking preference order (greedy first),
and a pattern is tried at each line-start position from the left, exactly
like `re.search`/`re.findall` on a `^`-anchored multiline pattern. -/

inductive Item where
  | lit (c : Char)
  | one (p : Char → Bool)
  | star (p : Char → Bool)
  | plus (p : Char → Bool)
  | eol

/-- Length of the maximal run of `p`-characters at the head. -/
def runLen (p : Char → Bool) (s : List Char) : Nat :=
  (s.takeWhile p).length

/-- All consumed lengths for a pattern sequence against a suffix, most
preferred first. -/
def matchSeq : List Item → List Char → List Nat
  | [], _ => [0]
  | .lit c :: rest, s =>
    match s with
    | x :: xs => if x = c then (matchSeq rest xs).map (· + 1) else []
    | [] => []
  | .one p :: rest, s =>
    match s with
    | x :: xs => if p x then (matchSeq rest xs).map (· + 1) else []
    | [] => []
  | .star p :: rest, s =>
    ((List.range (runLen p s + 1)).reverse).flatMap fun k =>
      (matchSeq rest (s.drop k)).map (· + k)
  | .plus p :: rest, s =>
    (((List.range (runLen p s + 1)).reverse).filter (1 ≤ ·)).flatMap fun k =>
      (matchSeq rest (s.drop k)).map (· + k)
  | .eol :: rest, s =>
    match s with
    | [] => matchSeq rest []
    | x :: _ => if x = '\n' then matchSeq rest s else []

/-- A pattern with one capture group: items before, inside and after the
group. -/
structure Pat where
  pre : List Item
  cap : List Item
  post : List Item

/-- Try a pattern at one position; return the captured text of the preferred
match. -/
def patMatchAt (P : Pat) (s : List Char) : Option (List Char) :=
  (matchSeq P.pre s).findSome? fun k1 =>
    (matchSeq P.cap (s.drop k1)).findSome? fun k2 =>
      if (matchSeq P.post ((s.drop k1).drop k2)).isEmpty then none
      else some ((s.drop k1).take k2)

/-- The `^`-anchor positions of `re.MULTILINE`: the whole string and every
suffix following a `\n`, left to right. -/
def lineSuffixes (s : List Char) : List (List Char) :=
  s :: afterNewlines s
where
  afterNewlines : List Char → List (List Char)
    | [] => []
    | c :: rest => if c = '\n' then rest :: afterNewlines rest else afterNewlines rest

/-- `re.search` of a `^`-anchored pattern: first line-start position with a
match, preferred capture there. -/
def reSearch (P : Pat) (s : List Char) : Option (List Char) :=
  (lineSuffixes s).findSome? (patMatchAt P)

/-- `re.findall` of a `^...$` single-line pattern: the capture of every
matching line, in order. -/
def reFindAll (P : Pat) (s : List Char) : List (List Char) :=
  (lineSuffixes s).filterMap (patMatchAt P)

/-- The `[\s:]` class used by the LLDP patterns. -/
def wsOrColon (c : Char) : Bool := pySpace c || c = ':'

/-- The `.` class without `re.DOTALL`: any character but a newline. -/
def dotCh (c : Char) : Bool := c ≠ '\n'

/-- The `[0-9a-zA-Z:]` class of `REMOTE_PORT_REGEX`. -/
def portIdCh (c : Char) : Bool := c.isAlphanum || c = ':'

/-- The `[\s"\/a-zA-Z0-9]` class of `REMOTE_PORT_REGEX`. -/
def portTailCh (c : Char) : Bool := pySpace c || c = '"' || c = '/' || c.isAlphanum

/-- `REMOTE_HOST_REGEX = r"^System Name[\s:]+(.+)$"`. -/
def hostPat : Pat :=
  ⟨(cs "System Name").map .lit ++ [.plus wsOrColon], [.plus dotCh], [.eol]⟩

/-- `REMOTE_PORT_REGEX = r"^Port Id[\s:]+([0-9a-zA-Z:]+[\n]{0,}[\s\"\/a-zA-Z0-9]+$)"`
(the `$` sits inside the capture group and consumes nothing). -/
def portPat : Pat :=
  ⟨(cs "Port Id").map .lit ++ [.plus wsOrColon],
   [.plus portIdCh, .star (· = '\n'), .plus portTailCh, .eol], []⟩

/-- `REMOTE_CHASSIS_REGEX = r"^Chassis Id[\s]{3,}[:\s](.+)$"` (`{3,}` is three
required whitespace characters followed by a greedy run). -/
def chassisPat : Pat :=
  ⟨(cs "Chassis Id").map .lit ++
     [.one pySpace, .one pySpace, .one pySpace, .star pySpace, .one wsOrColon],
   [.plus dotCh], [.eol]⟩

/-- `REMOTE_PORT_DESCR_REGEX = r"^Port Description[:\s]+(.+)$"`. -/
def portDescrPat : Pat :=
  ⟨(cs "Port Description").map .lit ++ [.plus wsOrColon], [.plus dotCh], [.eol]⟩

/-- `REMOTE_SYS_DESCR_REGEX = r"(?<=^System Description)\s*:\s(.*)(?=\n\n\n)"`
with `re.S | re.M`: the lookbehind is line-anchored, the capture is DOTALL
and greedy, and the lookahead requires three newlines.  Because the
lookahead ends the pattern and only the first match's capture is ever used
(`re.search`), requiring the three newlines as consumed literals is
equivalent to the zero-width lookahead. -/
def sysDescrPat : Pat :=
  ⟨(cs "System Description").map .lit ++ [.star pySpace, .lit ':', .one pySpace],
   [.star fun _ => true], [.lit '\n', .lit '\n', .lit '\n']⟩

/-- `REMOTE_SYS_CAP_REGEX = r"^Supported Caps[\s:]+(.+)$"`. -/
def sysCapPat : Pat :=
  ⟨(cs "Supported Caps").map .lit ++ [.plus wsOrColon], [.plus dotCh], [.eol]⟩

/-- `REMOTE_SYS_EN_CAP_REGEX = r"^Enabled Caps[\s:]+(.+)$"`. -/
def sysEnCapPat : Pat :=
  ⟨(cs "Enabled Caps").map .lit ++ [.plus wsOrColon], [.plus dotCh], [.eol]⟩


/-- `PORT_REGEX = r"^(?!=|-|\s|Port|Id.).+$"` applied to one line: nonempty,
and the negative lookahead rejects lines starting with `=`, `-`, a
whitespace character, `Port`, or `Id` followed by at least one more
character. -/
def portLineOk (line : List Char) : Bool :=
  line ≠ [] &&
  !(leadsWith (cs "=") line) &&
  !(leadsWith (cs "-") line) &&
  !(match line with | c :: _ => pySpace c | [] => false) &&
  !(leadsWith (cs "Port") line) &&
  !(leadsWith (cs "Id") line && line.length ≥ 3)

/-- The port-list derivation shared by both LLDP operations
(lines 749-754): every `PORT_REGEX` line is whitespace-split, and its first
token is kept unless the last token is `vport`. -/
def portsOf (port_data : List Char) : List (List Char) :=
  ((pySplitOnChar '\n' port_data).filter portLineOk).foldl
    (fun acc line =>
      match pySplit line with
      | [] => acc
      | t0 :: more =>
        if (t0 :: more).getLast (by simp) = cs "vport" then acc
        else acc ++ [t0])
    []

/-- One LLDP neighbor entry of `get_lldp_neighbors_detail` (the dict built at
lines 760-771). -/
structure LldpEntry where
  parent_interface : List Char
  remote_chassis_id : List Char
  remote_system_name : List Char
  remote_port : List Char
  remote_port_description : List Char
  remote_system_description : List Char
  remote_system_capab : List Char
  remote_system_enable_capab : List Char
  deriving DecidableEq, Repr

/-- Python `s.replace('"', "")`. -/
def dropQuotes (s : List Char) : List Char :=
  s.filter (· ≠ '"')

/-- `" ".join(x.split())`: collapse whitespace runs to single spaces. -/
def collapseWs (s : List Char) : List Char :=
  pyJoin [' '] (pySplit s)

/-- The body of `get_lldp_neighbors_detail`'s per-port processing
(lines 756-808): when at least one `System Name` line matches, an entry is
created with empty-string defaults, then `.group(1)` is called on each of
the chassis/port-description/system-description/caps searches — raising
`AttributeError` whenever one of them found no match — and finally the
`Port Id` extraction, whose `try` only shields the `IndexError` of
`.split()[1]`; a failed `Port Id` search still raises `AttributeError`. -/
def processPort (lldpOf : List Char → List Char) (port : List Char)
    (acc : List (List Char × List LldpEntry)) :
    Except PyError (List (List Char × List LldpEntry)) :=
  let lldp_data := lldpOf port
  let remote_host := reFindAll hostPat lldp_data
  match remote_host with
  | [] => .ok acc
  | host0 :: _ =>
    let e0 : LldpEntry :=
      { parent_interface := port
        remote_chassis_id := []
        remote_system_name := host0
        remote_port := []
        remote_port_description := []
        remote_system_description := []
        remote_system_capab := []
        remote_system_enable_capab := [] }
    match reSearch chassisPat lldp_data with
    | none => .error .attributeError
    | some chassis =>
      match reSearch portDescrPat lldp_data with
      | none => .error .attributeError
      | some pdescr =>
        match reSearch sysDescrPat lldp_data with
        | none => .error .attributeError
        | some sdescr =>
          match reSearch sysCapPat lldp_data with
          | none => .error .attributeError
          | some scap =>
            match reSearch sysEnCapPat lldp_data with
            | none => .error .attributeError
            | some sencap =>
              let e1 := { e0 with
                remote_chassis_id := chassis
                remote_port_description := pdescr
                remote_system_description := collapseWs sdescr
                remote_system_capab := scap
                remote_system_enable_capab := sencap }
              match reSearch portPat lldp_data with
              | none => .error .attributeError
              | some rp =>
                match (pySplit rp).get? 1 with
                | none => .ok (pyInsert acc port [e1])
                | some tok =>
                  .ok (pyInsert acc port [{ e1 with remote_port := dropQuotes tok }])

/-- The per-port loop of `get_lldp_neighbors_detail` (lines 755-808). -/
def lldpDetailLoop (lldpOf : List Char → List Char) :
    List (List Char) → List (List Char × List LldpEntry) →
    Except PyError (List (List Char × List LldpEntry))
  | [], acc => .ok acc
  | port :: rest, acc =>
    match processPort lldpOf port acc with
    | .error e => .error e
    | .ok acc' => lldpDetailLoop lldpOf rest acc'

/-- `get_lldp_neighbors_detail` (lines 743-809), with the transport layer
abstracted: `port_data` is the `show port` output and `lldpOf p` the output
of `show port p ethernet lldp remote-info`. -/
def getLldpNeighborsDetail (port_data : List Char) (lldpOf : List Char → List Char) :
    Except PyError (List (List Char × List LldpEntry)) :=
  lldpDetailLoop lldpOf (portsOf port_data) []

/-!  ## The Escape Filter (`_strip_ansi_escape_codes`)

Source: `src/napalm_nokia_olt/nokia_olt.py` lines 141-239.  Every pattern in
`code_set` is the escape prefix `ESC [` followed by a fixed tail, and the
whole pattern is wrapped as `(-|\\|\/|\s|\|){code}` — one delimiter
character is required before the code and is consumed together with it.
`Tok` is the tail language: literals, one digit (`\d`), greedy digit runs
(`\d+`, `\d*`), `(3|4)`, `(9|10)` and `[0-7]`.  Each greedy digit run in the
catalog is followed by a non-digit literal, so maximal-munch equals Python's
greedy backtracking here. -/

inductive Tok where
  | lit (c : Char)
  | dig1
  | dig0
  | digCh
  | alt34
  | alt910
  | oct07

/-- Match a pattern tail against a suffix, returning the consumed length. -/
def matchToks : List Tok → List Char → Option Nat
  | [], _ => some 0
  | .lit c :: ts, s =>
    match s with
    | x :: xs => if x = c then (matchToks ts xs).map (· + 1) else none
    | [] => none
  | .digCh :: ts, s =>
    match s with
    | x :: xs => if x.isDigit then (matchToks ts xs).map (· + 1) else none
    | [] => none
  | .dig1 :: ts, s =>
    let n := (s.takeWhile Char.isDigit).length
    if n = 0 then none else (matchToks ts (s.drop n)).map (· + n)
  | .dig0 :: ts, s =>
    let n := (s.takeWhile Char.isDigit).length
    (matchToks ts (s.drop n)).map (· + n)
  | .alt34 :: ts, s =>
    match s with
    | x :: xs => if x = '3' ∨ x = '4' then (matchToks ts xs).map (· + 1) else none
    | [] => none
  | .alt910 :: ts, s =>
    match s with
    | '9' :: xs => (matchToks ts xs).map (· + 1)
    | '1' :: '0' :: xs => (matchToks ts xs).map (· + 2)
    | _ => none
  | .oct07 :: ts, s =>
    match s with
    | x :: xs => if '0' ≤ x ∧ x ≤ '7' then (matchToks ts xs).map (· + 1) else none
    | [] => none

def escCh : Char := '\x1b'

/-- Match `ESC [` followed by the pattern tail. -/
def matchEsc (toks : List Tok) : List Char → Option Nat
  | a :: b :: rest =>
    if a = escCh ∧ b = '[' then (matchToks toks rest).map (· + 2) else none
  | _ => none

/-- The delimiter class `(-|\\|\/|\s|\|)` that each `code_set` pattern
requires (and consumes) in front of the escape code. -/
def ansiDelim (c : Char) : Bool :=
  c = '-' || c = '\\' || c = '/' || c = '|' || pySpace c

/-- One `re.sub(pattern, "", output)` pass: scan left to right; at a
delimiter followed by a matching code, delete both and resume after the
match; otherwise keep the character.  The fuel starts at the string length
and strictly dominates it, so it never runs out. -/
def stripOne (toks : List Tok) : Nat → List Char → List Char
  | 0, s => s
  | _ + 1, [] => []
  | fuel + 1, c :: rest =>
    if ansiDelim c then
      match matchEsc toks rest with
      | some L => stripOne toks fuel (rest.drop L)
      | none => c :: stripOne toks fuel rest
    else c :: stripOne toks fuel rest

/-- One pass of the `for ansi_esc_code in code_set:` loop. -/
def subPass (toks : List Tok) (s : List Char) : List Char :=
  stripOne toks s.length s

/-- `ESC[\d+;\d+H`. -/
def code_position_cursor : List Tok := [.dig1, .lit ';', .dig1, .lit 'H']
/-- `ESC[?25h`. -/
def code_show_cursor : List Tok := [.lit '?', .lit '2', .lit '5', .lit 'h']
/-- `ESC[2K`. -/
def code_erase_line : List Tok := [.lit '2', .lit 'K']
/-- `ESC[\d+;\d+r`. -/
def code_enable_scroll : List Tok := [.dig1, .lit ';', .dig1, .lit 'r']
/-- `ESC[K`. -/
def code_erase_start_line : List Tok := [.lit 'K']
/-- `ESC[1M`. -/
def code_carriage_return : List Tok := [.lit '1', .lit 'M']
/-- `ESC[?7l`. -/
def code_disable_line_wrapping : List Tok := [.lit '?', .lit '7', .lit 'l']
/-- `ESC[K` (same text as `code_erase_start_line`). -/
def code_erase_line_end : List Tok := [.lit 'K']
/-- `ESC[?\d+l`. -/
def code_reset_mode_screen_options : List Tok := [.lit '?', .dig1, .lit 'l']
/-- `ESC[00m`. -/
def code_reset_graphics_mode : List Tok := [.lit '0', .lit '0', .lit 'm']
/-- `ESC[2J`. -/
def code_erase_display : List Tok := [.lit '2', .lit 'J']
/-- `ESC[\dm`. -/
def code_graphics_mode : List Tok := [.digCh, .lit 'm']
/-- `ESC[\d\d;\d\dm`. -/
def code_graphics_mode1 : List Tok := [.digCh, .digCh, .lit ';', .digCh, .digCh, .lit 'm']
/-- `ESC[\d\d;\d\d;\d\dm`. -/
def code_graphics_mode2 : List Tok :=
  [.digCh, .digCh, .lit ';', .digCh, .digCh, .lit ';', .digCh, .digCh, .lit 'm']
/-- `ESC[(3|4)\dm`. -/
def code_graphics_mode3 : List Tok := [.alt34, .digCh, .lit 'm']
/-- `ESC[(9|10)[0-7]m`. -/
def code_graphics_mode4 : List Tok := [.alt910, .oct07, .lit 'm']
/-- `ESC[6n`. -/
def code_get_cursor_position : List Tok := [.lit '6', .lit 'n']
/-- `ESC[m`. -/
def code_cursor_position : List Tok := [.lit 'm']
/-- `ESC[J`. -/
def code_erase_display_0 : List Tok := [.lit 'J']
/-- `ESC[0m`. -/
def code_attrs_off : List Tok := [.lit '0', .lit 'm']
/-- `ESC[7m`. -/
def code_reverse : List Tok := [.lit '7', .lit 'm']
/-- `ESC[\d+D`. -/
def code_cursor_left : List Tok := [.dig1, .lit 'D']
/-- `ESC[\d*A`. -/
def code_cursor_up : List Tok := [.dig0, .lit 'A']
/-- `ESC[\d*B`. -/
def code_cursor_down : List Tok := [.dig0, .lit 'B']
/-- `ESC[\d*C`. -/
def code_cursor_forward : List Tok := [.dig0, .lit 'C']
/-- `ESC[?7h`. -/
def code_wrap_around : List Tok := [.lit '?', .lit '7', .lit 'h']
/-- `ESC[?2004h`. -/
def code_bracketed_paste_mode : List Tok := [.lit '?', .lit '2', .lit '0', .lit '0', .lit '4', .lit 'h']

/-- The pattern tails of `code_set` (lines 204-233), in source order —
including `code_erase_display` listed twice, exactly as in the source.
(`code_next_line` and `code_insert_line` are defined in the source but
never placed in `code_set`, so they are omitted here too.) -/
def codeSet : List (List Tok) :=
  [ code_position_cursor,
    code_show_cursor,
    code_erase_line,
    code_enable_scroll,
    code_erase_start_line,
    code_carriage_return,
    code_disable_line_wrapping,
    code_erase_line_end,
    code_reset_mode_screen_options,
    code_reset_graphics_mode,
    code_erase_display,
    code_graphics_mode,
    code_graphics_mode1,
    code_graphics_mode2,
    code_graphics_mode3,
    code_graphics_mode4,
    code_get_cursor_position,
    code_cursor_position,
    code_erase_display,
    code_erase_display_0,
    code_attrs_off,
    code_reverse,
    code_cursor_left,
    code_cursor_up,
    code_cursor_down,
    code_cursor_forward,
    code_wrap_around,
    code_bracketed_paste_mode ]

/-- `_strip_ansi_escape_codes(string_buffer)`: the `re.sub` passes applied
in `code_set` order. -/
def stripAnsi (s : List Char) : List Char :=
  codeSet.foldl (fun acc toks => subPass toks acc) s

/-- The `ESC [ 2 J` erase-display sequence, as characters. -/
def e2j : List Char := [escCh, '[', '2', 'J']

/-!  ## Lemmas about the Escape Filter -/

theorem foldlSubPass_eq {l : List (List Tok)} {x : List Char}
    (h : ∀ toks ∈ l, subPass toks x = x) :
    l.foldl (fun acc toks => subPass toks acc) x = x := by
  induction l with
  | nil => rfl
  | cons t ts ih =>
    simp only [List.foldl_cons]
    rw [h t (List.mem_cons_self _ _)]
    exact ih fun toks ht => h toks (List.mem_cons_of_mem _ ht)

theorem subPass_nil (toks : List Tok) : subPass toks [] = [] := rfl

theorem subPass_cons_delim (toks : List Tok) (c : Char) (s : List Char)
    (hd : ansiDelim c = true) :
    subPass toks (c :: s) =
      match matchEsc toks s with
      | some L => stripOne toks s.length (s.drop L)
      | none => c :: subPass toks s := by
  unfold subPass
  simp only [List.length_cons]
  rw [stripOne]
  simp only [hd, if_true]

theorem subPass_cons_nd (toks : List Tok) (c : Char) (s : List Char)
    (hd : ansiDelim c = false) :
    subPass toks (c :: s) = c :: subPass toks s := by
  unfold subPass
  simp only [List.length_cons]
  rw [stripOne]
  simp only [hd, Bool.false_eq_true, if_false]

theorem matchEsc_noesc (toks : List Tok) (s : List Char) (h : escCh ∉ s) :
    matchEsc toks s = none := by
  match s with
  | [] => rfl
  | [_] => rfl
  | x :: y :: r =>
    have hx : ¬x = escCh := fun e => h (e ▸ List.mem_cons_self _ _)
    simp [matchEsc, hx]

theorem stripOne_noesc (toks : List Tok) :
    ∀ (fuel : Nat) (s : List Char), escCh ∉ s → stripOne toks fuel s = s := by
  intro fuel
  induction fuel with
  | zero => intro s _; rfl
  | succ n ih =>
    intro s hs
    match s with
    | [] => rfl
    | c :: rest =>
      have hr : escCh ∉ rest := fun hm => hs (List.mem_cons_of_mem _ hm)
      have hm := matchEsc_noesc toks rest hr
      by_cases hd : ansiDelim c <;> simp [stripOne, hd, hm, ih rest hr]

theorem subPass_noesc (toks : List Tok) (s : List Char) (h : escCh ∉ s) :
    subPass toks s = s :=
  stripOne_noesc toks s.length s h

theorem stripAnsi_noesc (s : List Char) (h : escCh ∉ s) : stripAnsi s = s :=
  foldlSubPass_eq fun toks _ => subPass_noesc toks s h

theorem stripOne_nodelim (toks : List Tok) :
    ∀ (fuel : Nat) (s : List Char), (∀ x ∈ s, ansiDelim x = false) →
      stripOne toks fuel s = s := by
  intro fuel
  induction fuel with
  | zero => intro s _; rfl
  | succ n ih =>
    intro s hs
    match s with
    | [] => rfl
    | c :: rest =>
      have hc : ansiDelim c = false := hs c (List.mem_cons_self _ _)
      have hr : ∀ x ∈ rest, ansiDelim x = false :=
        fun x hx => hs x (List.mem_cons_of_mem _ hx)
      simp [stripOne, hc, ih rest hr]

theorem subPass_nodelim (toks : List Tok) (s : List Char)
    (h : ∀ x ∈ s, ansiDelim x = false) : subPass toks s = s :=
  stripOne_nodelim toks s.length s h

/-!  ## Claims C4 and C5: the Escape Filter -/

/-- The input refuting idempotence: `a␣␣ESC[2J ESC[?25h`.  The first pass
over `code_erase_display` consumes one space together with `ESC[2J`,
exposing the remaining space as a delimiter for `ESC[?25h` — but the
`code_show_cursor` pass has already run, so only a second application
removes it. -/
def idemCx : List Char := cs "a  " ++ e2j ++ [escCh, '[', '?', '2', '5', 'h']

/-- Claim C4, counterexample: applying `_strip_ansi_escape_codes` twice to
`idemCx` strips more than applying it once, so the filter is not
idempotent as the claim states. -/
theorem claim4_counterexample :
    stripAnsi (stripAnsi idemCx) ≠ stripAnsi idemCx := by decide

/-- Claim C4, amended: `_strip_ansi_escape_codes` is idempotent on input
containing no ESC character (there it is the identity); on input with
escape codes a pass can expose a delimiter in front of a code handled by an
earlier pass, and a second application then strips further (see
`claim4_counterexample`). -/
theorem claim4_theorem (s : List Char) (h : escCh ∉ s) :
    stripAnsi (stripAnsi s) = stripAnsi s := by
  rw [stripAnsi_noesc s h, stripAnsi_noesc s h]

/-- Witness for `claim4_theorem` at a concrete ESC-free string. -/
theorem claim4_witness :
    escCh ∉ cs "show port output" ∧
      stripAnsi (stripAnsi (cs "show port output")) = stripAnsi (cs "show port output") :=
  ⟨by decide, claim4_theorem (cs "show port output") (by decide)⟩

/-- Claim C5, counterexample: the catalogued sequence `ESC[2J` is *not*
removed after an ordinary character (so removal does depend on the
preceding character), and when it is removed after a space, the space — an
adjacent non-escape character — is deleted with it. -/
theorem claim5_counterexample :
    stripAnsi ('x' :: e2j) = 'x' :: e2j ∧ ('x' :: e2j : List Char) ≠ ['x'] ∧
      stripAnsi (' ' :: e2j) = [] ∧ ([] : List Char) ≠ [' '] := by decide

/-- Claim C5, amended: a catalogued sequence is removed only when the
character immediately before it is one of the delimiters `-`, `\`, `/`,
`|` or whitespace, and that delimiter character is deleted together with
the sequence; preceded by any other character the sequence (and everything
else) is left untouched.  Shown for the erase-display code `ESC[2J`
standing after a single arbitrary character. -/
theorem claim5_theorem (c : Char) :
    (ansiDelim c = true → stripAnsi (c :: e2j) = []) ∧
      (ansiDelim c = false → stripAnsi (c :: e2j) = c :: e2j) := by
  constructor
  · intro hd
    have hn : ∀ toks, matchEsc toks e2j = none → subPass toks (c :: e2j) = c :: e2j := by
      intro toks h
      rw [subPass_cons_delim _ _ _ hd, h, subPass_nodelim toks e2j (by decide)]
    have hm : subPass code_erase_display (c :: e2j) = [] := by
      rw [subPass_cons_delim _ _ _ hd,
          show matchEsc code_erase_display e2j = some 4 from rfl]
      rfl
    simp only [stripAnsi, codeSet, List.foldl_cons, List.foldl_nil]
    rw [hn code_position_cursor (by decide), hn code_show_cursor (by decide),
        hn code_erase_line (by decide), hn code_enable_scroll (by decide),
        hn code_erase_start_line (by decide), hn code_carriage_return (by decide),
        hn code_disable_line_wrapping (by decide), hn code_erase_line_end (by decide),
        hn code_reset_mode_screen_options (by decide), hn code_reset_graphics_mode (by decide),
        hm]
    simp only [subPass_nil]
  · intro hd
    refine foldlSubPass_eq fun toks _ => subPass_nodelim toks _ ?_
    intro x hx
    rcases List.mem_cons.mp hx with h1 | h2
    · exact h1 ▸ hd
    · exact (by decide : ∀ y ∈ e2j, ansiDelim y = false) x h2

/-- Witness for `claim5_theorem`: a space delimiter lets `ESC[2J` (and the
space) be stripped, a letter prevents any removal. -/
theorem claim5_witness :
    stripAnsi ('-' :: e2j) = [] ∧ stripAnsi ('Q' :: e2j) = 'Q' :: e2j :=
  ⟨( claim5_theorem '-').1 (by decide), ( claim5_theorem 'Q').2 (by decide)⟩

/-!  ## Claim C8: the Keyed Grouper `_convert_list_to_dict` -/

theorem convertListToDict_lookup_go (key : List Char) (k : Option (List Char)) :
    ∀ (data : List Rec) (d0 : List (Option (List Char) × Rec)),
    pyLookup
      (data.foldl
        (fun d r =>
          match pyLookup r key with
          | some v => pyInsert d v r
          | none => d)
        d0) k =
      match (data.filter fun r => pyLookup r key = some k).getLast? with
      | some r => some r
      | none => pyLookup d0 k := by
  intro data
  induction data with
  | nil => intro d0; rfl
  | cons r rest ih =>
    intro d0
    simp only [List.foldl_cons, List.filter_cons, decide_eq_true_eq]
    cases hr : pyLookup r key with
    | none =>
      dsimp only
      rw [if_neg (show ¬(none : Option (Option (List Char))) = some k by simp)]
      exact ih d0
    | some v =>
      by_cases hv : v = k
      · subst hv
        dsimp only
        rw [if_pos rfl, List.getLast?_cons, ih (pyInsert d0 v r)]
        cases hfr : (List.filter (fun r => decide (pyLookup r key = some v)) rest).getLast? with
        | none => simp [hfr, pyLookup_pyInsert]
        | some x => simp [hfr]
      · dsimp only
        rw [if_neg (show ¬some v = some k by simp [hv]), ih (pyInsert d0 v r)]
        cases hfr : (List.filter (fun r => decide (pyLookup r key = some k)) rest).getLast? with
        | none =>
          have hkv : ¬k = v := fun h => hv h.symm
          simp [hfr, pyLookup_pyInsert, hkv]
        | some x => simp [hfr]

theorem convertListToDict_keys_go (key : List Char) :
    ∀ (data : List Rec) (d0 : List (Option (List Char) × Rec)),
    (∀ p ∈ d0, pyLookup p.2 key = some p.1) →
    ∀ p ∈ data.foldl
        (fun d r =>
          match pyLookup r key with
          | some v => pyInsert d v r
          | none => d)
        d0,
      pyLookup p.2 key = some p.1 := by
  intro data
  induction data with
  | nil => intro d0 h0; exact h0
  | cons r rest ih =>
    intro d0 h0
    simp only [List.foldl_cons]
    apply ih
    cases hr : pyLookup r key with
    | none => exact h0
    | some v =>
      intro p hp
      obtain ⟨pk, pr⟩ := p
      rcases mem_pyInsert hp with ⟨h1, h2⟩ | hmem
      · subst h1; subst h2; exact hr
      · exact h0 _ hmem

/-- Claim C8 (confirmed): `_convert_list_to_dict(data, key)` maps each key
`k` to the *last* record of `data` whose `key`-field equals `k` (and to
nothing when no record carries `k`); records lacking the key field are
silently excluded by the `except KeyError: pass` rather than raising — the
grouping is a total function of its input — and every stored entry's key
equals the value its record holds for the key field. -/
theorem claim8_theorem (data : List Rec) (key : List Char) (k : Option (List Char)) :
    pyLookup (convertListToDict data key) k =
      (data.filter fun r => pyLookup r key = some k).getLast? ∧
    ∀ p ∈ convertListToDict data key, pyLookup p.2 key = some p.1 := by
  constructor
  · rw [convertListToDict, convertListToDict_lookup_go key k data []]
    cases hfr : (List.filter (fun r => decide (pyLookup r key = some k)) data).getLast? with
    | none => rfl
    | some x => rfl
  · exact convertListToDict_keys_go key data [] (by intro p hp; cases hp)

/-- Witness for `claim8_theorem`: three records — two sharing key value `1`
(the later wins) and one lacking the key field (dropped). -/
theorem claim8_witness :
    pyLookup
        (convertListToDict
          [[(cs "slot", some (cs "1")), (cs "x", some (cs "a"))],
           [(cs "y", some (cs "b"))],
           [(cs "slot", some (cs "1")), (cs "x", some (cs "c"))]]
          (cs "slot"))
        (some (cs "1")) =
      some [(cs "slot", some (cs "1")), (cs "x", some (cs "c"))] ∧
    pyLookup [(cs "slot", some (cs "1")), (cs "x", some (cs "c"))] (cs "slot") =
      some (some (cs "1")) :=
  ⟨((claim8_theorem
      [[(cs "slot", some (cs "1")), (cs "x", some (cs "a"))],
       [(cs "y", some (cs "b"))],
       [(cs "slot", some (cs "1")), (cs "x", some (cs "c"))]]
      (cs "slot") (some (cs "1"))).1).trans (by decide),
   (claim8_theorem
      [[(cs "slot", some (cs "1")), (cs "x", some (cs "a"))],
       [(cs "y", some (cs "b"))],
       [(cs "slot", some (cs "1")), (cs "x", some (cs "c"))]]
      (cs "slot") (some (cs "1"))).2
     (some (cs "1"), [(cs "slot", some (cs "1")), (cs "x", some (cs "c"))])
     (by decide)⟩

/-!  ## Claim C3: the list-accumulation grouping of `get_vlan_bridge_port_fdb` -/

theorem fdbScan_eq (full : List (Option (List Char) × Option (List Char)))
    (vlan mac : Option (List Char)) (lst : List (Option (List Char) × Option (List Char))) :
    fdbScan full vlan mac lst =
      if lst.any (fun p => p.2 ≠ mac) then full ++ [(vlan, mac)] else full := by
  induction lst with
  | nil => simp [fdbScan]
  | cons p rest ih =>
    rw [fdbScan, List.any_cons]
    by_cases hp : p.2 = mac
    · rw [if_neg (show ¬p.2 ≠ mac by simp [hp]), ih]
      have hd : (decide ¬p.2 = mac) = false := by simp [hp]
      rw [hd]
      simp only [Bool.false_or]
    · rw [if_pos hp]
      have hd : (decide ¬p.2 = mac) = true := by simp [hp]
      rw [hd]
      simp only [Bool.true_or]
      rw [if_pos trivial]

theorem pyInsert_self {α β : Type} [DecidableEq α] (d : List (α × β)) (k : α) (v : β)
    (h : pyLookup d k = some v) : pyInsert d k v = d := by
  induction d with
  | nil => simp [pyLookup] at h
  | cons p t ih =>
    obtain ⟨a, b⟩ := p
    by_cases hak : a = k
    · have hb : b = v := by
        rw [pyLookup, if_pos hak] at h
        exact Option.some.inj h
      simp [pyInsert, hak, hb]
    · rw [pyLookup, if_neg hak] at h
      simp [pyInsert, hak, ih h]

/-- Claim C3 (amended): for a port already present with stored pair list
`lst`, one record `(port, vlan, mac)` of `get_vlan_bridge_port_fdb`'s loop
appends `(vlan, mac)` exactly when *some* stored pair under the port has a
mac different from `mac` — even when `(vlan, mac)` itself is already stored,
so the same pair can be stored twice (see `claim3_counterexample`); only
when every stored pair carries the same mac is the record skipped. -/
theorem claim3_theorem
    (d : List (Option (List Char) × List (Option (List Char) × Option (List Char))))
    (port vlan mac : Option (List Char))
    (lst : List (Option (List Char) × Option (List Char)))
    (h : pyLookup d port = some lst) :
    fdbStep d port vlan mac =
      if lst.any (fun p => p.2 ≠ mac) then pyInsert d port (lst ++ [(vlan, mac)]) else d := by
  unfold fdbStep
  rw [h]
  dsimp only
  rw [fdbScan_eq]
  by_cases ha : lst.any (fun p => p.2 ≠ mac)
  · rw [if_pos ha, if_pos ha]
    have hm : pyMem (pyInsert d port (lst ++ [(vlan, mac)])) port = true := by
      unfold pyMem
      rw [pyLookup_pyInsert]
      simp
    rw [if_pos hm]
  · rw [if_neg ha, if_neg ha, pyInsert_self d port lst h]
    have hm : pyMem d port = true := by
      unfold pyMem
      rw [h]
      rfl
    rw [if_pos hm]

/-- Witness for `claim3_theorem`: under port `p` with pairs `(1,a),(2,b)`
already stored, the duplicate record `(p,2,b)` is re-appended because mac
`a` differs from `b`. -/
theorem claim3_witness :
    fdbStep [(some (cs "p"), [(some (cs "1"), some (cs "a")), (some (cs "2"), some (cs "b"))])]
        (some (cs "p")) (some (cs "2")) (some (cs "b")) =
      [(some (cs "p"),
        [(some (cs "1"), some (cs "a")), (some (cs "2"), some (cs "b")),
         (some (cs "2"), some (cs "b"))])] := by
  rw [claim3_theorem _ _ _ _ [(some (cs "1"), some (cs "a")), (some (cs "2"), some (cs "b"))]
      (by decide)]
  decide

set_option maxRecDepth 16384 in
/-- Claim C3 (counterexample): a source whose records list `(p, 2, b)` twice
(after `(p, 1, a)`) makes `get_vlan_bridge_port_fdb` store the pair `(2, b)`
twice under port `p`, refuting "never contains the same (vlan-id, mac) pair
twice under the same port key". -/
theorem claim3_counterexample :
    getVlanBridgePortFdb (cs "h")
        (cs "<r><instance><info name=\"port\">p</info><info name=\"vlan-id\">1</info><info name=\"mac\">a</info></instance><instance><info name=\"port\">p</info><info name=\"vlan-id\">2</info><info name=\"mac\">b</info></instance><instance><info name=\"port\">p</info><info name=\"vlan-id\">2</info><info name=\"mac\">b</info></instance></r>") =
      .ok (.inl [(some (cs "p"),
        [(some (cs "1"), some (cs "a")), (some (cs "2"), some (cs "b")),
         (some (cs "2"), some (cs "b"))])]) := by
  rfl

/-!  ## Claim C2: empty/unparseable output at the fact-retrieval boundary -/

/-- Claim C2 (counterexample): an empty reply to `get_ntp_servers` is *not*
resolved into a no-data result — `convert_xml_to_list` returns `None` for
falsy input and the following `for sub in data:` raises an uncaught
`TypeError` to the caller. -/
theorem claim2_counterexample : getNtpServers (cs "") = .error .typeError := rfl

/-- Claim C2 (amended): only the operations guarded by `if data:` (here
`get_equipment_ont_interfaces`) turn empty output into the explicit no-data
message; `get_facts` has no guard and propagates the `ET.fromstring` parse
error uncaught when a command output is empty, and `get_ntp_servers` raises
an uncaught `TypeError` on empty output. -/
theorem claim2_theorem :
    getNtpServers (cs "") = .error .typeError ∧
    getFacts (cs "") (cs "") (cs "") (cs "") (cs "") (cs "") = .error .parseError ∧
    getEquipmentOntInterfaces (cs "olt1") (cs "") =
      .ok (.inr (cs "No available data from the olt1")) :=
  ⟨rfl, rfl, rfl⟩

/-!  ## Claim C6: `get_facts` defaults -/

set_option maxRecDepth 16384 in
/-- Claim C6 (counterexample): when the isam-detail output supplies no
`description` field, `get_facts` returns *without* the documented defaults —
`fqdn`, `uptime`, `os_version`, `serial_number`, `hostname` and `vendor` are
all absent from the mapping (only `model` and `interface_list` are set),
refuting "the defaults are present even when the isam-detail source supplies
no 'description' field". -/
theorem claim6_counterexample :
    getFacts (cs "<r><hierarchy name=\"isam\"><info name=\"x\">y</info></hierarchy></r>")
        (cs "<r></r>") (cs "") (cs "<r></r>") (cs "<r></r>") (cs "") =
      .ok [(cs "model", .vs none), (cs "interface_list", .vl [])] ∧
    pyLookup [((cs "model" : List Char), FactVal.vs none), (cs "interface_list", .vl [])]
        (cs "fqdn") = none :=
  ⟨by rfl, by rfl⟩

set_option maxRecDepth 16384 in
/-- Claim C6 (amended): the documented defaults are installed only when the
isam-detail output yields an `isam` hierarchy whose flattening contains
`description`.  Given that, the spec's scenario holds: with only the
shelf-detail output supplying `serial-no` and `variant` and the isam-detail
output supplying `description`, those fields are non-default while the
unsupplied `uptime` and `os_version` keep their empty-string defaults,
`fqdn` is `Unknown` and `interface_list` is empty. -/
theorem claim6_theorem :
    getFacts (cs "<r><hierarchy name=\"isam\"><info name=\"description\">MYHOST</info></hierarchy></r>")
        (cs "<r></r>") (cs "")
        (cs "<r><hierarchy name=\"shelf\"><info name=\"serial-no\">SN1</info><info name=\"variant\">V1</info></hierarchy></r>")
        (cs "<r></r>") (cs "   Copyright (c) NOKIA ISAM 7360\n") =
      .ok
        [(cs "model", .vs (some (cs "ISAM 7360 (V1)"))),
         (cs "hostname", .vs (some (cs "MYHOST"))),
         (cs "vendor", .vs (some (cs "Nokia"))),
         (cs "uptime", .vs (some (cs ""))),
         (cs "os_version", .vs (some (cs ""))),
         (cs "serial_number", .vs (some (cs "SN1"))),
         (cs "fqdn", .vs (some (cs "Unknown"))),
         (cs "interface_list", .vl [])] := by
  rfl

/-!  ## Claim C10: the VLAN interface-append step of `get_vlans` -/

set_option maxRecDepth 16384 in
/-- Claim C10 (counterexample): a tagging instance whose `vlan-id` (`99`) is
absent from the vlan-name output but whose `transmit-mode` is neither
`single-tagged` nor `untagged` does not trigger the `vlans[vlan_id]` lookup:
`get_vlans` returns normally even though the claimed precondition fails, so
"returns normally only under the precondition" is refuted. -/
theorem claim10_counterexample :
    getVlans (cs "<r><instance><info name=\"id\">10</info><info name=\"name\">users</info></instance></r>")
        (cs "<r><instance><info name=\"vlan-id\">99</info><info name=\"vlan-port\">vlan-port:1/1/1:99</info><info name=\"transmit-mode\">other-mode</info></instance></r>") =
      .ok [((10 : Int), ⟨some (cs "users"), []⟩)] ∧
    pyLookup [((10 : Int), VlanEntry.mk (some (cs "users")) [])] (99 : Int) = none :=
  ⟨by rfl, by rfl⟩

set_option maxRecDepth 16384 in
/-- Claim C10 (amended): the precondition concerns only tagging instances
whose `transmit-mode` contains `single-tagged` or `untagged`: for such an
instance with a `vlan-id` absent from the vlan-name ids the interface-append
step raises an uncaught `KeyError`, while an instance with any other
transmit-mode is skipped and its unknown `vlan-id` does not prevent a normal
return. -/
theorem claim10_theorem :
    getVlans (cs "<r><instance><info name=\"id\">10</info><info name=\"name\">users</info></instance></r>")
        (cs "<r><instance><info name=\"vlan-id\">99</info><info name=\"vlan-port\">vlan-port:1/1/1:99</info><info name=\"transmit-mode\">untagged</info></instance></r>") =
      .error .keyError ∧
    getVlans (cs "<r><instance><info name=\"id\">10</info><info name=\"name\">users</info></instance></r>")
        (cs "<r><instance><info name=\"vlan-id\">99</info><info name=\"vlan-port\">vlan-port:1/1/1:99</info><info name=\"transmit-mode\">other-mode</info></instance></r>") =
      .ok [((10 : Int), ⟨some (cs "users"), []⟩)] :=
  ⟨by rfl, by rfl⟩

/-!  ## Claim C7: the Record Lister `convert_xml_to_list` -/

theorem instList_ok_length :
    ∀ (xs : List XTree) (l : List Rec), instList xs = .ok l → l.length = xs.length := by
  intro xs
  induction xs with
  | nil =>
    intro l h
    rw [instList] at h
    rw [← Except.ok.inj h]
    rfl
  | cons e rest ih =>
    intro l h
    rw [instList] at h
    cases hr : instRecord e with
    | error err => rw [hr] at h; cases h
    | ok r =>
      rw [hr] at h
      cases hrest : instList rest with
      | error err => rw [hrest] at h; cases h
      | ok rs =>
        rw [hrest] at h
        rw [← Except.ok.inj h]
        simp [ih rs hrest]

/-- Claim C7 (amended): for truthy input whose sanitized text parses, the
Record Lister returns one record per `instance` element that is a *direct
child* of the root (ElementTree's `findall("instance")` does not descend),
in document order; zero such instances yield the empty list, not an error.
Instances nested deeper are not listed (see `claim7_counterexample`). -/
theorem claim7_theorem (s : List Char) (t : XTree) (l : List Rec)
    (hs : s ≠ []) (hp : parseXml (sanitizeXml s) = .ok t)
    (hi : instList (rootInstances t) = .ok l) :
    convertXmlToList s = .ok (some l) ∧
    l.length = (rootInstances t).length ∧
    (rootInstances t = [] → l = []) := by
  refine ⟨?_, instList_ok_length _ _ hi, ?_⟩
  · unfold convertXmlToList xmlBody
    rw [if_neg hs, hp]
    dsimp only
    rw [hi]
    rfl
  · intro h0
    rw [h0, instList] at hi
    exact (Except.ok.inj hi).symm

/-- Witness for `claim7_theorem`: a document with two top-level instances
and one with none. -/
theorem claim7_witness :
    convertXmlToList (cs "<r><instance><a name=\"x\">1</a></instance><instance><a name=\"y\">2</a></instance></r>") =
      .ok (some [[(cs "x", some (cs "1"))], [(cs "y", some (cs "2"))]]) ∧
    convertXmlToList (cs "<r><b name=\"z\">3</b></r>") = .ok (some []) :=
  ⟨(claim7_theorem
      (cs "<r><instance><a name=\"x\">1</a></instance><instance><a name=\"y\">2</a></instance></r>")
      (XTree.node (cs "r") [] none
        [XTree.node (cs "instance") [] none
          [XTree.node (cs "a") [(cs "name", cs "x")] (some (cs "1")) []],
         XTree.node (cs "instance") [] none
          [XTree.node (cs "a") [(cs "name", cs "y")] (some (cs "2")) []]])
      [[(cs "x", some (cs "1"))], [(cs "y", some (cs "2"))]]
      (by decide) (by rfl) (by rfl)).1,
   (claim7_theorem (cs "<r><b name=\"z\">3</b></r>")
      (XTree.node (cs "r") [] none
        [XTree.node (cs "b") [(cs "name", cs "z")] (some (cs "3")) []])
      []
      (by decide) (by rfl) (by rfl)).1⟩

/-- Claim C7 (counterexample): a well-formed document with exactly one
`instance` node at depth two yields *zero* records — `findall("instance")`
matches only direct children of the root, refuting "instance nodes at any
depth". -/
theorem claim7_counterexample :
    convertXmlToList (cs "<root><a><instance><x name=\"f\">v</x></instance></a></root>") =
      .ok (some []) ∧
    (parseXml (sanitizeXml (cs "<root><a><instance><x name=\"f\">v</x></instance></a></root>"))).map
        deepInstanceCount = .ok 1 :=
  ⟨by rfl, by rfl⟩

/-!  ## Claim C9: the Node Flattener round trip -/

/-- Does flattening this element write the key `k`? -/
def writesKey (e : XTree) (k : List Char) : Bool :=
  e.tag ≠ cs "instance" &&
    (match getAttr e (cs "name") with
     | some a => normName a = k
     | none => false)

theorem flattenElems_append (xs ys : List XTree) (d0 : Rec) :
    flattenElems (xs ++ ys) d0 =
      match flattenElems xs d0 with
      | .error e => .error e
      | .ok d1 => flattenElems ys d1 := by
  induction xs generalizing d0 with
  | nil => rfl
  | cons e rest ih =>
    simp only [List.cons_append, flattenElems]
    cases hs : flattenStep d0 e with
    | error err => rfl
    | ok d1 => exact ih d1

theorem flatten_preserve (k : List Char) :
    ∀ (xs : List XTree) (d0 d : Rec),
      flattenElems xs d0 = .ok d →
      (∀ e ∈ xs, writesKey e k = false) →
      pyLookup d k = pyLookup d0 k := by
  intro xs
  induction xs with
  | nil =>
    intro d0 d h _
    rw [flattenElems] at h
    rw [← Except.ok.inj h]
  | cons e rest ih =>
    intro d0 d h hw
    rw [flattenElems] at h
    cases hs : flattenStep d0 e with
    | error err => rw [hs] at h; cases h
    | ok d1 =>
      rw [hs] at h
      have hrest := ih d1 d h fun e' he' => hw e' (List.mem_cons_of_mem _ he')
      rw [hrest]
      have hwk := hw e (List.mem_cons_self _ _)
      unfold flattenStep at hs
      by_cases ht : e.tag = cs "instance"
      · rw [if_pos ht] at hs
        rw [← Except.ok.inj hs]
      · rw [if_neg ht] at hs
        cases ha : getAttr e (cs "name") with
        | none => rw [ha] at hs; cases hs
        | some a =>
          rw [ha] at hs
          have hne : ¬(normName a = k) := by
            simp [writesKey, ha, ht] at hwk
            exact hwk
          rw [← Except.ok.inj hs, pyLookup_pyInsert]
          rw [if_neg (fun hkk => hne hkk.symm)]

/-- Claim C9 (confirmed): flattening a node and looking a field up under the
normalised name attribute it was created from returns that element's text
content verbatim — `none` (present, not absent) for an empty-content
element — provided the flattening succeeded and no later element in
iteration order writes the same normalised name (with duplicate names the
field belongs to the last writer, exactly as the dict assignment
overwrites). -/
theorem claim9_theorem (t : XTree) (d : Rec) (e : XTree) (a : List Char)
    (pre post : List XTree)
    (hsplit : iterElems t = pre ++ e :: post)
    (hok : convertXmlElemToDict t = .ok d)
    (htag : ¬(e.tag = cs "instance"))
    (hname : getAttr e (cs "name") = some a)
    (hpost : ∀ e' ∈ post, writesKey e' (normName a) = false) :
    pyLookup d (normName a) = some e.text := by
  unfold convertXmlElemToDict at hok
  rw [hsplit, flattenElems_append] at hok
  cases hpre : flattenElems pre [] with
  | error err => rw [hpre] at hok; cases hok
  | ok d1 =>
    rw [hpre] at hok
    dsimp only at hok
    rw [flattenElems] at hok
    have hstep : flattenStep d1 e = .ok (pyInsert d1 (normName a) e.text) := by
      unfold flattenStep
      rw [if_neg htag, hname]
    rw [hstep] at hok
    dsimp only at hok
    have hkeep := flatten_preserve (normName a) post _ d hok hpost
    rw [hkeep, pyLookup_pyInsert, if_pos rfl]

/-- The elements of the witness tree for `claim9_theorem`: a field whose
name attribute carries a space and a field with empty content. -/
def w9field1 : XTree := XTree.node (cs "info") [(cs "name", cs "a b")] (some (cs "v")) []

def w9field2 : XTree := XTree.node (cs "info") [(cs "name", cs "empty")] none []

def w9tree : XTree := XTree.node (cs "r") [(cs "name", cs "top")] none [w9field1, w9field2]

/-- Witness for `claim9_theorem`: the space-named field is found under its
underscored key with its text verbatim, and the empty-content field is
present with value `none`. -/
theorem claim9_witness :
    pyLookup [(cs "top", (none : Option (List Char))), (cs "a_b", some (cs "v")),
        (cs "empty", none)] (cs "a_b") = some (some (cs "v")) ∧
    pyLookup [(cs "top", (none : Option (List Char))), (cs "a_b", some (cs "v")),
        (cs "empty", none)] (cs "empty") = some none :=
  ⟨claim9_theorem w9tree
      [(cs "top", none), (cs "a_b", some (cs "v")), (cs "empty", none)]
      w9field1 (cs "a b") [w9tree] [w9field2]
      (by rfl) (by rfl) (by decide) (by rfl)
      (fun e' he' => by rw [List.mem_singleton] at he'; rw [he']; rfl),
   claim9_theorem w9tree
      [(cs "top", none), (cs "a_b", some (cs "v")), (cs "empty", none)]
      w9field2 (cs "empty") [w9tree, w9field1] []
      (by rfl) (by rfl) (by decide) (by rfl)
      (fun e' he' => absurd he' (List.not_mem_nil e'))⟩

/-!  ## Claim C1: missing optional fields in `get_lldp_neighbors_detail` -/

/-- Claim C1 (counterexample): the spec's own scenario — a remote-info block
with a `System Name` line and a `Port Id` line but no `Chassis Id` line —
makes `get_lldp_neighbors_detail` raise an uncaught `AttributeError`
(`.group(1)` on the failed chassis search) instead of returning an entry. -/
theorem claim1_counterexample :
    getLldpNeighborsDetail (cs "p1")
        (fun _ => cs "System Name: R1\nPort Id: 1/1/2\n") =
      .error .attributeError := by
  rfl

/-- Claim C1 (amended): when a port's remote-info output matches the
`System Name` pattern but not the `Chassis Id` pattern, the extraction
raises an `AttributeError` rather than returning a chassis-less entry:
`.group(1)` is called unconditionally on the chassis (and port-description,
system-description, caps) searches, and only the `Port Id` step is guarded —
and only against `IndexError`. -/
theorem claim1_theorem (port_data : List Char) (lldpOf : List Char → List Char)
    (port : List Char)
    (hports : portsOf port_data = [port])
    (hhost : reFindAll hostPat (lldpOf port) ≠ [])
    (hchassis : reSearch chassisPat (lldpOf port) = none) :
    getLldpNeighborsDetail port_data lldpOf = .error .attributeError := by
  unfold getLldpNeighborsDetail
  rw [hports]
  have hp : processPort lldpOf port [] = .error .attributeError := by
    unfold processPort
    dsimp only
    cases hh : reFindAll hostPat (lldpOf port) with
    | nil => exact absurd hh hhost
    | cons h0 hrest =>
      dsimp only
      rw [hchassis]
  rw [lldpDetailLoop, hp]

/-- Witness for `claim1_theorem` at a concrete single-port device reply. -/
theorem claim1_witness :
    getLldpNeighborsDetail (cs "nt-a:xfp:1 up")
        (fun _ => cs "System Name: R2\nPort Id: 7\n") =
      .error .attributeError :=
  claim1_theorem (cs "nt-a:xfp:1 up") (fun _ => cs "System Name: R2\nPort Id: 7\n")
    (cs "nt-a:xfp:1") (by decide) (by decide) (by rfl)
